import Mathlib

/-!
Verification of the waifu-backend HTTP relay (src/index.js).

The program has two independent flows:
- a chat relay (`POST /api/chat`) that validates three body fields, makes one
  upstream OpenAI completion call, and maps the result to a 200/400/500 JSON
  response;
- a scheduled poster (`postToX`) that each tick composes a tweet from a static
  template pool plus a 19-character timestamp, publishes it when it fits in
  280 UTF-16 units, and unconditionally reschedules itself one hour later.

The handlers are embedded as pure functions; upstream network behaviour is an
explicit function argument, and the list of outbound calls made is returned
alongside the HTTP response so call-count properties can be stated.
-/

namespace WaifuBackend

/-- One role/content entry of the upstream `messages` array (index.js:60-63). -/
structure ChatMessage where
  role : String
  content : String
deriving DecidableEq, Repr

/-- The data of the outbound axios POST built at index.js:56-71: URL, JSON body
fields (`model`, `messages`) and the two request headers. -/
structure UpstreamRequest where
  url : String
  model : String
  messages : List ChatMessage
  contentType : String
  authorization : String
deriving DecidableEq, Repr

/-- The credential-free view of an outbound request: every field except the
`Authorization` header. -/
structure UpstreamRequestView where
  url : String
  model : String
  messages : List ChatMessage
  contentType : String
deriving DecidableEq, Repr

/-- Drop the `Authorization` header from an outbound request. -/
def eraseAuth (r : UpstreamRequest) : UpstreamRequestView :=
  ⟨r.url, r.model, r.messages, r.contentType⟩

/-- One choice object of the upstream response body (`choices[i]`). -/
structure Choice where
  message : ChatMessage
deriving DecidableEq, Repr

/-- The upstream response body as read at index.js:74: `response.data.choices`. -/
structure UpstreamData where
  choices : List Choice
deriving DecidableEq, Repr

/-- Outcome of the awaited axios call: `thrown` covers a network error or a
non-2xx status (axios rejects the promise, landing in the catch block at
index.js:76); `ok d` is a 2xx response whose parsed body is `d`. -/
inductive UpstreamOutcome where
  | thrown
  | ok (d : UpstreamData)
deriving DecidableEq, Repr

/-- The extraction `response.data.choices[0].message.content` at index.js:74.
With an empty `choices` array the JavaScript expression throws (indexing yields
`undefined`), which the surrounding try/catch turns into the 500 branch; that
partiality is `none` here. -/
def extractContent (d : UpstreamData) : Option String :=
  match d.choices with
  | [] => none
  | c :: _ => some c.message.content

/-- The parsed JSON body of a chat request (index.js:49): each of the three
destructured fields is absent (`none`) or a string. -/
structure ChatRequest where
  waifu : Option String
  message : Option String
  prompt : Option String
deriving DecidableEq, Repr

/-- JavaScript truthiness of one destructured string field: `!x` is true when
the field is absent (`undefined`) or the empty string. -/
def fieldPresent : Option String → Bool
  | none => false
  | some s => !s.isEmpty

/-- The guard at index.js:50: `!waifu || !message || !prompt` negated. -/
def validChatRequest (req : ChatRequest) : Bool :=
  fieldPresent req.waifu && fieldPresent req.message && fieldPresent req.prompt

/-- A response body: `{ response: ... }`, `{ error: ... }` or `{ status: ... }`. -/
inductive ResponseBody where
  | chat (response : String)
  | error (error : String)
  | status (status : String)
deriving DecidableEq, Repr

/-- An HTTP response: status code plus JSON body. -/
structure HttpResponse where
  statusCode : Nat
  body : ResponseBody
deriving DecidableEq, Repr

/-- The outbound completion request built at index.js:56-71. -/
def mkUpstreamRequest (openAiKey message prompt : String) : UpstreamRequest :=
  { url := "https://api.openai.com/v1/chat/completions"
    model := "gpt-3.5-turbo"
    messages := [⟨"system", prompt⟩, ⟨"user", message⟩]
    contentType := "application/json"
    authorization := "Bearer " ++ openAiKey }

/-- The `POST /api/chat` handler (index.js:43-85). `upstream` is the behaviour
of the awaited axios call. Returns the HTTP response together with the list of
upstream calls the handler performed, in order. -/
def chatHandler (openAiKey : String) (upstream : UpstreamRequest → UpstreamOutcome)
    (req : ChatRequest) : HttpResponse × List UpstreamRequest :=
  if validChatRequest req then
    let upReq := mkUpstreamRequest openAiKey (req.message.getD "") (req.prompt.getD "")
    match upstream upReq with
    | .thrown => (⟨500, .error "Something went wrong"⟩, [upReq])
    | .ok d =>
        match extractContent d with
        | some c => (⟨200, .chat c⟩, [upReq])
        | none => (⟨500, .error "Something went wrong"⟩, [upReq])
  else
    (⟨400, .error "Missing required fields"⟩, [])

/-- UTF-16 code units a single character occupies: characters outside the Basic
Multilingual Plane take a surrogate pair. JavaScript string `.length` counts
these units. -/
def charUtf16Size (c : Char) : Nat :=
  if c.toNat < 65536 then 1 else 2

/-- The JavaScript `.length` of a string: total UTF-16 code units. -/
def utf16Length (s : String) : Nat :=
  (s.data.map charUtf16Size).sum

/-- The static template pool `cryptoFlirtMessages` (index.js:95-101). -/
def cryptoFlirtMessages : List String :=
  [ "Ohh, is that your token, daddy? I love it as much as I love you! 💋"
  , "Hey cutie, your crypto wallet’s looking hot—wanna trade with me? 😘"
  , "Mmm, your blockchain moves are turning me on, daddy! Let’s stack those coins! 💸"
  , "Is that a new token in your pocket, or are you just happy to see me? 😉"
  , "I’m hodling my heart for you and your crypto, daddy! 💕"
  ]

/-- `getRandomMessage` (index.js:104-106): `Math.floor(Math.random() * len)` is
a uniformly random index below the pool length; the draw is the `Fin` argument. -/
def getRandomMessage (r : Fin cryptoFlirtMessages.length) : String :=
  cryptoFlirtMessages.get r

/-- The tweet composition at index.js:111: template, `" | "` separator, then the
19-character timestamp slice of the ISO string with `T` replaced by a space. -/
def composeTweet (msg ts : String) : String :=
  msg ++ " | " ++ ts

/-- Result of the awaited `twitterClient.v2.tweet` call: resolves or rejects
(the rejection is caught and logged at index.js:118-120). -/
inductive PublishResult where
  | ok
  | err
deriving DecidableEq, Repr

/-- How one tick of `postToX` ended: tweet published, publish call rejected, or
skipped by the 280-unit length gate. -/
inductive TickOutcome where
  | published
  | publishFailed
  | skipped
deriving DecidableEq, Repr

/-- The observable effects of one `postToX` tick: its outcome, the texts
submitted to the publish API, and the delay of the `setTimeout` rescheduling
the next tick. -/
structure TickResult where
  outcome : TickOutcome
  publishCalls : List String
  nextDelayMs : Option Nat
deriving DecidableEq, Repr

/-- One tick of `postToX` (index.js:109-123): compose the tweet from the random
template draw `r` and the current timestamp `ts`; publish only when its
JavaScript length is at most 280 (a rejected publish is swallowed by the
try/catch); in every case schedule the next tick 3600000 ms later. -/
def postToXTick (r : Fin cryptoFlirtMessages.length) (ts : String)
    (publish : String → PublishResult) : TickResult :=
  let tweet := composeTweet (getRandomMessage r) ts
  if utf16Length tweet ≤ 280 then
    match publish tweet with
    | .ok => { outcome := .published, publishCalls := [tweet], nextDelayMs := some 3600000 }
    | .err => { outcome := .publishFailed, publishCalls := [tweet], nextDelayMs := some 3600000 }
  else
    { outcome := .skipped, publishCalls := [], nextDelayMs := some 3600000 }

/-- What module evaluation reaches at startup: `process.exit(code)` at
index.js:39, or `app.listen` serving traffic with the credential in hand. -/
inductive StartupResult where
  | exited (code : Nat)
  | serving (openAiKey : String)
deriving DecidableEq, Repr

/-- The startup credential check (index.js:36-40): `process.env.OPENAI_API_KEY`
is `none` when the variable is absent; `!openAiKey` is also true for the empty
string. On failure the process exits with code 1 before `app.listen` runs. -/
def startupCheck (openAiKeyEnv : Option String) : StartupResult :=
  match openAiKeyEnv with
  | none => .exited 1
  | some k => if k.isEmpty then .exited 1 else .serving k

/-- The mutable state the two flows of the process accumulate; the health route
reads none of it. -/
structure ProcessState where
  chatRequestsServed : Nat
  posterTicksRun : Nat
  lastTickOutcome : Option TickOutcome
deriving DecidableEq, Repr

/-- The `GET /health` handler (index.js:24-27). -/
def healthHandler (_s : ProcessState) : HttpResponse :=
  ⟨200, .status "OK"⟩

/-! ## Theorems -/

/-- C1: for every chat request with `waifu`, `message` and `prompt` all present
and non-empty, the relay makes exactly one upstream completion call, and
responds either 200 with the first completion choice's message content, or 500
with the fixed body `{ error: "Something went wrong" }` — on an upstream throw
(network error or non-2xx status) and on a malformed response body alike, never
the raw upstream error. -/
theorem chat_valid_one_call_and_envelope (key : String)
    (up : UpstreamRequest → UpstreamOutcome) (req : ChatRequest)
    (h : validChatRequest req = true) :
    ((chatHandler key up req).2).length = 1 ∧
      ((∃ d c, up (mkUpstreamRequest key (req.message.getD "") (req.prompt.getD "")) = .ok d ∧
          extractContent d = some c ∧
          (chatHandler key up req).1 = ⟨200, .chat c⟩) ∨
        (chatHandler key up req).1 = ⟨500, .error "Something went wrong"⟩) := by
  cases hu : up (mkUpstreamRequest key (req.message.getD "") (req.prompt.getD "")) with
  | thrown =>
      refine ⟨?_, Or.inr ?_⟩ <;> simp [chatHandler, h, hu]
  | ok d =>
      cases hc : extractContent d with
      | none =>
          refine ⟨?_, Or.inr ?_⟩ <;> simp [chatHandler, h, hu, hc]
      | some c =>
          exact ⟨by simp [chatHandler, h, hu, hc],
            Or.inl ⟨d, c, rfl, hc, by simp [chatHandler, h, hu, hc]⟩⟩

/-- Witness for C1 at a concrete request and a stubbed upstream returning the
choice text `Hello!`. -/
theorem chat_valid_one_call_and_envelope_witness :
    validChatRequest ⟨some "Aiko", some "hi", some "You are Aiko"⟩ = true ∧
    (((chatHandler "sk-test"
        (fun _ => .ok ⟨[⟨⟨"assistant", "Hello!"⟩⟩]⟩)
        ⟨some "Aiko", some "hi", some "You are Aiko"⟩).2).length = 1 ∧
      ((∃ d c, (fun (_ : UpstreamRequest) => UpstreamOutcome.ok ⟨[⟨⟨"assistant", "Hello!"⟩⟩]⟩)
            (mkUpstreamRequest "sk-test"
              ((⟨some "Aiko", some "hi", some "You are Aiko"⟩ : ChatRequest).message.getD "")
              ((⟨some "Aiko", some "hi", some "You are Aiko"⟩ : ChatRequest).prompt.getD "")) = .ok d ∧
          extractContent d = some c ∧
          (chatHandler "sk-test"
            (fun _ => .ok ⟨[⟨⟨"assistant", "Hello!"⟩⟩]⟩)
            ⟨some "Aiko", some "hi", some "You are Aiko"⟩).1 = ⟨200, .chat c⟩) ∨
        (chatHandler "sk-test"
          (fun _ => .ok ⟨[⟨⟨"assistant", "Hello!"⟩⟩]⟩)
          ⟨some "Aiko", some "hi", some "You are Aiko"⟩).1 = ⟨500, .error "Something went wrong"⟩)) :=
  ⟨by decide,
    chat_valid_one_call_and_envelope "sk-test"
      (fun _ => .ok ⟨[⟨⟨"assistant", "Hello!"⟩⟩]⟩)
      ⟨some "Aiko", some "hi", some "You are Aiko"⟩ (by decide)⟩

/-- C2: for every chat request in which `waifu`, `message` or `prompt` is
missing or empty, the relay responds 400 with body
`{ error: "Missing required fields" }` and performs no upstream call. -/
theorem chat_invalid_400_no_call (key : String)
    (up : UpstreamRequest → UpstreamOutcome) (req : ChatRequest)
    (h : validChatRequest req = false) :
    chatHandler key up req = (⟨400, .error "Missing required fields"⟩, []) := by
  simp [chatHandler, h]

/-- Witness for C2 at a request missing `waifu`. -/
theorem chat_invalid_400_no_call_witness :
    chatHandler "sk-test" (fun _ => .thrown) ⟨none, some "hi", some "x"⟩ =
      (⟨400, .error "Missing required fields"⟩, []) :=
  chat_invalid_400_no_call "sk-test" (fun _ => .thrown) ⟨none, some "hi", some "x"⟩ (by decide)

/-- C5: for every valid chat request, the upstream completion request carries
the fixed model identifier `gpt-3.5-turbo` and a two-element `messages` list:
first the system role with the caller's `prompt`, then the user role with the
caller's `message`. -/
theorem chat_upstream_request_shape (key : String)
    (up : UpstreamRequest → UpstreamOutcome) (req : ChatRequest) (m p : String)
    (hm : req.message = some m) (hp : req.prompt = some p)
    (h : validChatRequest req = true) :
    (chatHandler key up req).2 = [mkUpstreamRequest key m p] ∧
    (mkUpstreamRequest key m p).model = "gpt-3.5-turbo" ∧
    (mkUpstreamRequest key m p).messages = [⟨"system", p⟩, ⟨"user", m⟩] := by
  have hm' : req.message.getD "" = m := by rw [hm]; rfl
  have hp' : req.prompt.getD "" = p := by rw [hp]; rfl
  refine ⟨?_, rfl, rfl⟩
  have hcalls : (chatHandler key up req).2 =
      [mkUpstreamRequest key (req.message.getD "") (req.prompt.getD "")] := by
    cases hu : up (mkUpstreamRequest key (req.message.getD "") (req.prompt.getD "")) with
    | thrown => simp [chatHandler, h, hu]
    | ok d =>
        cases hc : extractContent d with
        | none => simp [chatHandler, h, hu, hc]
        | some c => simp [chatHandler, h, hu, hc]
  rw [hcalls, hm', hp']

/-- Witness for C5 at a concrete valid request. -/
theorem chat_upstream_request_shape_witness :
    (chatHandler "sk-test" (fun _ => .thrown) ⟨some "Aiko", some "hi", some "You are Aiko"⟩).2 =
      [mkUpstreamRequest "sk-test" "hi" "You are Aiko"] ∧
    (mkUpstreamRequest "sk-test" "hi" "You are Aiko").model = "gpt-3.5-turbo" ∧
    (mkUpstreamRequest "sk-test" "hi" "You are Aiko").messages =
      [⟨"system", "You are Aiko"⟩, ⟨"user", "hi"⟩] :=
  chat_upstream_request_shape "sk-test" (fun _ => .thrown)
    ⟨some "Aiko", some "hi", some "You are Aiko"⟩ "hi" "You are Aiko" rfl rfl (by decide)

/-- C6: the credential is confined to the `Authorization` header. For any two
keys and any upstream behaviour that reads only the credential-free view of the
outbound request, the relay's response and the credential-free view of every
outbound call are identical under either key, and every outbound call's
`Authorization` header is exactly `Bearer` followed by the key. -/
theorem chat_credential_confined (k1 k2 : String)
    (up : UpstreamRequestView → UpstreamOutcome) (req : ChatRequest) :
    (chatHandler k1 (fun r => up (eraseAuth r)) req).1 =
      (chatHandler k2 (fun r => up (eraseAuth r)) req).1 ∧
    (chatHandler k1 (fun r => up (eraseAuth r)) req).2.map eraseAuth =
      (chatHandler k2 (fun r => up (eraseAuth r)) req).2.map eraseAuth ∧
    ((chatHandler k1 (fun r => up (eraseAuth r)) req).2.all
        (fun r => r.authorization == "Bearer " ++ k1)) = true := by
  by_cases h : validChatRequest req = true
  · have hview : ∀ k : String,
        eraseAuth (mkUpstreamRequest k (req.message.getD "") (req.prompt.getD "")) =
          ⟨"https://api.openai.com/v1/chat/completions", "gpt-3.5-turbo",
            [⟨"system", req.prompt.getD ""⟩, ⟨"user", req.message.getD ""⟩],
            "application/json"⟩ :=
      fun _ => rfl
    cases hu : up ⟨"https://api.openai.com/v1/chat/completions", "gpt-3.5-turbo",
        [⟨"system", req.prompt.getD ""⟩, ⟨"user", req.message.getD ""⟩],
        "application/json"⟩ with
    | thrown =>
        refine ⟨?_, ?_, ?_⟩ <;>
          simp [chatHandler, h, hview, hu, eraseAuth, mkUpstreamRequest]
    | ok d =>
        cases hc : extractContent d with
        | none =>
            refine ⟨?_, ?_, ?_⟩ <;>
              simp [chatHandler, h, hview, hu, hc, eraseAuth, mkUpstreamRequest]
        | some c =>
            refine ⟨?_, ?_, ?_⟩ <;>
              simp [chatHandler, h, hview, hu, hc, eraseAuth, mkUpstreamRequest]
  · have h' : validChatRequest req = false := by
      cases hv : validChatRequest req with
      | true => exact absurd hv h
      | false => rfl
    refine ⟨?_, ?_, ?_⟩ <;> simp [chatHandler, h']

/-- C7: `waifu` does not influence the upstream call or the response. Two
requests that differ only in a present, non-empty `waifu` yield the same
response and the same list of outbound calls under the same upstream
behaviour. -/
theorem chat_waifu_not_used (key : String) (up : UpstreamRequest → UpstreamOutcome)
    (w1 w2 : String) (m p : Option String)
    (h1 : w1.isEmpty = false) (h2 : w2.isEmpty = false) :
    chatHandler key up ⟨some w1, m, p⟩ = chatHandler key up ⟨some w2, m, p⟩ := by
  simp [chatHandler, validChatRequest, fieldPresent, h1, h2]

/-- Witness for C7 at two concrete `waifu` values. -/
theorem chat_waifu_not_used_witness :
    chatHandler "sk-test" (fun _ => .thrown) ⟨some "Aiko", some "hi", some "You are Aiko"⟩ =
      chatHandler "sk-test" (fun _ => .thrown) ⟨some "Rem", some "hi", some "You are Aiko"⟩ :=
  chat_waifu_not_used "sk-test" (fun _ => .thrown) "Aiko" "Rem"
    (some "hi") (some "You are Aiko") (by decide) (by decide)

/-- The JavaScript length of a concatenation is the sum of the lengths. -/
theorem utf16Length_append (s t : String) :
    utf16Length (s ++ t) = utf16Length s + utf16Length t := by
  simp [utf16Length, String.data_append]

/-- Every template in the pool is at most 258 UTF-16 units long (the longest is
80). -/
theorem cryptoFlirtMessages_short : ∀ s ∈ cryptoFlirtMessages, utf16Length s ≤ 258 := by
  decide

/-- C3: every tick of the poster schedules the next tick 3600000 ms (one hour)
later, whatever the tick's outcome: published, publish rejected, or skipped by
the length gate. -/
theorem poster_always_reschedules (r : Fin cryptoFlirtMessages.length) (ts : String)
    (publish : String → PublishResult) :
    (postToXTick r ts publish).nextDelayMs = some 3600000 := by
  unfold postToXTick
  dsimp only
  split
  · cases publish (composeTweet (getRandomMessage r) ts) <;> rfl
  · rfl

/-- C4: when the composed tweet exceeds 280 UTF-16 units the tick makes no
publish call (no truncated or substituted text is sent either); otherwise it
makes exactly one publish call, with the composed tweet as submitted text. -/
theorem poster_length_gate (r : Fin cryptoFlirtMessages.length) (ts : String)
    (publish : String → PublishResult) :
    (280 < utf16Length (composeTweet (getRandomMessage r) ts) →
      (postToXTick r ts publish).publishCalls = []) ∧
    (utf16Length (composeTweet (getRandomMessage r) ts) ≤ 280 →
      (postToXTick r ts publish).publishCalls = [composeTweet (getRandomMessage r) ts]) := by
  constructor
  · intro hlong
    unfold postToXTick
    dsimp only
    rw [if_neg (by omega)]
  · intro hfits
    unfold postToXTick
    dsimp only
    rw [if_pos hfits]
    cases publish (composeTweet (getRandomMessage r) ts) <;> rfl

/-- Witness for C4: a short timestamp keeps the first template under 280 units
and the tick submits exactly that tweet. -/
theorem poster_length_gate_witness :
    utf16Length (composeTweet (getRandomMessage ⟨0, by decide⟩) "2025-01-01 00:00:00") ≤ 280 ∧
    (postToXTick ⟨0, by decide⟩ "2025-01-01 00:00:00" (fun _ => .ok)).publishCalls =
      [composeTweet (getRandomMessage ⟨0, by decide⟩) "2025-01-01 00:00:00"] :=
  ⟨by decide,
    (poster_length_gate ⟨0, by decide⟩ "2025-01-01 00:00:00" (fun _ => .ok)).2 (by decide)⟩

/-- C10: for every template draw and every 19-unit timestamp, the composed
tweet fits in 280 UTF-16 units, so the skip branch is unreachable and the tick
makes exactly one publish call. -/
theorem poster_tweet_always_fits (r : Fin cryptoFlirtMessages.length) (ts : String)
    (publish : String → PublishResult) (hts : utf16Length ts = 19) :
    utf16Length (composeTweet (getRandomMessage r) ts) ≤ 280 ∧
    (postToXTick r ts publish).publishCalls.length = 1 := by
  have hmem : getRandomMessage r ∈ cryptoFlirtMessages := by
    unfold getRandomMessage
    exact List.get_mem cryptoFlirtMessages r.1 r.2
  have hmsg : utf16Length (getRandomMessage r) ≤ 258 := cryptoFlirtMessages_short _ hmem
  have hfits : utf16Length (composeTweet (getRandomMessage r) ts) ≤ 280 := by
    unfold composeTweet
    rw [utf16Length_append, utf16Length_append]
    have hsep : utf16Length " | " = 3 := by decide
    omega
  refine ⟨hfits, ?_⟩
  unfold postToXTick
  dsimp only
  rw [if_pos hfits]
  cases publish (composeTweet (getRandomMessage r) ts) <;> rfl

/-- Witness for C10 at a concrete draw and timestamp. -/
theorem poster_tweet_always_fits_witness :
    utf16Length (composeTweet (getRandomMessage ⟨2, by decide⟩) "2025-06-30 23:59:59") ≤ 280 ∧
    (postToXTick ⟨2, by decide⟩ "2025-06-30 23:59:59" (fun _ => .err)).publishCalls.length = 1 :=
  poster_tweet_always_fits ⟨2, by decide⟩ "2025-06-30 23:59:59" (fun _ => .err) (by decide)

/-- C8: the health route answers 200 with `{ status: "OK" }` whatever state the
chat and poster flows have accumulated. -/
theorem health_always_ok (s : ProcessState) :
    healthHandler s = ⟨200, .status "OK"⟩ ∧
    ∀ t : ProcessState, healthHandler s = healthHandler t := by
  exact ⟨rfl, fun _ => rfl⟩

/-- C9: with the credential env var absent the process exits with a non-zero
code before serving; serving is only ever reached with the (non-empty)
credential in hand, so no chat request is handled without it. -/
theorem startup_requires_credential :
    (∃ c, startupCheck none = .exited c ∧ c ≠ 0) ∧
    ∀ e k, startupCheck e = .serving k → e = some k ∧ k.isEmpty = false := by
  refine ⟨⟨1, rfl, one_ne_zero⟩, ?_⟩
  intro e k h
  match e with
  | none => exact absurd h (by simp [startupCheck])
  | some s =>
      by_cases hs : s.isEmpty
      · rw [startupCheck, if_pos hs] at h
        exact absurd h (by simp)
      · rw [startupCheck, if_neg hs] at h
        cases h
        exact ⟨rfl, by simpa using hs⟩

/-- Witness for C9: a set credential reaches serving, an absent one exits 1. -/
theorem startup_requires_credential_witness :
    startupCheck none = .exited 1 ∧
    (some "sk-test" = some "sk-test" ∧ String.isEmpty "sk-test" = false) :=
  ⟨rfl, startup_requires_credential.2 (some "sk-test") "sk-test" rfl⟩

end WaifuBackend
